import Mathlib

/-!
Verification of the clippersoftware repository (Twitch clip downloader and
video post-processing utilities).

The Python sources are shallowly embedded: pure string manipulation becomes
Lean functions on `String`/`List Char`; external-process invocations
(yt-dlp, ffmpeg) are modelled by environment records holding the outcome of
each invocation, with a world record tracing the commands actually spawned
and the files existing on disk; Python exceptions that escape a function are
modelled with `Except`.

Sources embedded (paths relative to the repository root):
  twitch_clip_downloader.py  — CLI lister / ranker / downloader / emitters / main
  simple_gui.py              — GUI variant (date-filtered lister)
  video_processor.py         — processing operations and the batch runner
-/

/-! ## Python string/path primitives used by the sources -/

/-- Whitespace test of Python str.strip (ASCII whitespace as used here). -/
def pyIsSpace (c : Char) : Bool :=
  c == ' ' || c == '\t' || c == '\n' || c == '\r' || c == '\x0b' || c == '\x0c'

/-- Python str.strip(): drop leading and trailing whitespace. -/
def pyStrip (s : String) : String :=
  String.mk (((s.data.dropWhile pyIsSpace).reverse.dropWhile pyIsSpace).reverse)

/-- Python str.split(sep) for a single-character separator, on char lists. -/
def splitOnChar (sep : Char) : List Char → List (List Char)
  | [] => [[]]
  | c :: cs =>
    match splitOnChar sep cs with
    | [] => [[]]
    | r :: rs => if c = sep then [] :: r :: rs else (c :: r) :: rs

/-- Python s.split('\n'). -/
def pySplitNL (s : String) : List String :=
  (splitOnChar '\n' s.data).map String.mk

/-- ASCII lower-casing of one character (Python str.lower on ASCII data). -/
def pyLowerChar (c : Char) : Char :=
  if 'A' ≤ c ∧ c ≤ 'Z' then Char.ofNat (c.toNat + 32) else c

/-- Python str.lower(). -/
def pyLower (s : String) : String :=
  String.mk (s.data.map pyLowerChar)

/-- A single-quote character as a string (used inside ffmpeg filter strings). -/
def squote : String :=
  String.mk [Char.ofNat 39]

/-- os.path.join for one component (POSIX form, directory without trailing slash). -/
def pathJoin (dir name : String) : String :=
  dir ++ "/" ++ name

/-- os.path.abspath relative to a current working directory. -/
def pyAbspath (cwd p : String) : String :=
  match p.data with
  | '/' :: _ => p
  | _ => cwd ++ "/" ++ p

/-- Index of the last occurrence of a character, if any. -/
def lastIndexOf (c : Char) (l : List Char) : Option Nat :=
  match l.reverse.findIdx? (· = c) with
  | none => none
  | some i => some (l.length - 1 - i)

/-- os.path.splitext (posixpath): split off the extension at the last dot of
the final path component, unless that component consists only of leading dots
before it. -/
def splitext (p : String) : String × String :=
  let l := p.data
  let sepIdx : Int := match lastIndexOf '/' l with | none => -1 | some i => (i : Int)
  let dotIdx : Int := match lastIndexOf '.' l with | none => -1 | some i => (i : Int)
  if sepIdx < dotIdx then
    let seg := (l.take dotIdx.toNat).drop (sepIdx + 1).toNat
    if seg.any (· ≠ '.') then
      (String.mk (l.take dotIdx.toNat), String.mk (l.drop dotIdx.toNat))
    else (p, "")
  else (p, "")

/-- Python s.rsplit('.', 1)[0]: everything before the last dot (the whole
string when there is no dot). -/
def rsplitDotBase (s : String) : String :=
  match lastIndexOf '.' s.data with
  | none => s
  | some i => String.mk (s.data.take i)

/-- os.path.basename: the part after the last slash. -/
def pyBasename (p : String) : String :=
  match lastIndexOf '/' p.data with
  | none => p
  | some i => String.mk (p.data.drop (i + 1))

namespace TCD

/-! ## Data model (twitch_clip_downloader.py lines 106-124): the ClipRecord
dictionary built by scrape_clips. -/

/-- One clip record as built by scrape_clips (same shape in both the CLI and
the GUI module). -/
structure ClipRecord where
  id : String
  title : String
  url : String
  thumbnail_url : String
  view_count : Nat
  duration : Nat
  created_at : String
  broadcaster_name : String
deriving DecidableEq, Repr

/-- The fields read out of one parsed JSON line (dict .get with defaults);
a missing key is `none`. -/
structure ClipJson where
  id? : Option String := none
  title? : Option String := none
  webpage_url? : Option String := none
  thumbnail? : Option String := none
  view_count? : Option Nat := none
  duration? : Option Nat := none
  upload_date? : Option String := none
deriving DecidableEq, Repr

/-- Outcome of json.loads on one stdout line: a JSON parse error, a valid
JSON value that is not an object (dict access then raises AttributeError),
or a JSON object. -/
inductive JLine where
  | bad
  | nonobj
  | obj (o : ClipJson)
deriving DecidableEq, Repr

/-- twitch_clip_downloader.py lines 113-123: build the clip dict from one
parsed JSON object, applying the documented defaults. -/
def build_clip (username : String) (o : ClipJson) : ClipRecord where
  id := o.id?.getD ""
  title := o.title?.getD "Untitled Clip"
  url := o.webpage_url?.getD ""
  thumbnail_url := o.thumbnail?.getD ""
  view_count := o.view_count?.getD 0
  duration := o.duration?.getD 0
  created_at := o.upload_date?.getD ""
  broadcaster_name := username

/-! ## Filename sanitization (twitch_clip_downloader.py line 148,
simple_gui.py line 400): re.sub of a character class by '_'. -/

/-- The nine characters of the regex character class in
re.sub(r'[\\/*?:"<>|]', '_', title). -/
def invalid_filename_chars : List Char :=
  ['\\', '/', '*', '?', ':', '"', '<', '>', '|']

/-- re.sub(r'[\\/*?:"<>|]', '_', title): every occurrence of a character of
the class is replaced by an underscore, character by character. -/
def sanitize_title (title : String) : String :=
  String.mk (title.data.map (fun c => if c ∈ invalid_filename_chars then '_' else c))

/-! ## Clip Ranker (twitch_clip_downloader.py lines 306-307, simple_gui.py
line 359): clips.sort(key=lambda x: x.get('view_count', 0), reverse=True).
Python list.sort is a stable sort; with reverse=True elements are ordered by
key descending and ties keep their original relative order.  The unique list
with these properties is produced by insertion sort under the relation
below. -/

/-- x may come before y in the ranked output: x's view count is at least
y's. -/
def viewOrd (x y : ClipRecord) : Prop :=
  y.view_count ≤ x.view_count

instance : DecidableRel viewOrd := fun _ _ => Nat.decLe _ _

instance : IsTotal ClipRecord viewOrd :=
  ⟨fun a b => Nat.le_total b.view_count a.view_count⟩

instance : IsTrans ClipRecord viewOrd :=
  ⟨fun _ _ _ hab hbc => Nat.le_trans hbc hab⟩

/-- The ranking step: stable sort by view_count descending. -/
def rank_clips (l : List ClipRecord) : List ClipRecord :=
  List.insertionSort viewOrd l

end TCD

/-! ## Theorems for claims C6 and C3 -/

theorem sanitize_data_map (s : String) :
    (TCD.sanitize_title s).data =
      s.data.map (fun c => if c ∈ TCD.invalid_filename_chars then '_' else c) :=
  rfl

theorem sanitize_zip_mem (l : List Char) (p : Char × Char) :
    p ∈ l.zip (l.map (fun c => if c ∈ TCD.invalid_filename_chars then '_' else c)) →
    p.2 = if p.1 ∈ TCD.invalid_filename_chars then '_' else p.1 := by
  induction l with
  | nil => intro hp; simp at hp
  | cons a t ih =>
    intro hp
    simp only [List.map_cons, List.zip_cons_cons, List.mem_cons] at hp
    rcases hp with rfl | hp
    · rfl
    · exact ih hp

/-- Claim C6: filename sanitization replaces exactly the nine characters
\ / * ? : " < > | by '_' and leaves every other character unchanged
(character-wise mapping, hence also length-preserving), and it is
idempotent: sanitizing an already-sanitized title is a no-op. -/
theorem sanitize_title_spec (s : String) (p : Char × Char)
    (hp : p ∈ s.data.zip (TCD.sanitize_title s).data) :
    (p.2 = if p.1 ∈ TCD.invalid_filename_chars then '_' else p.1) ∧
    (TCD.sanitize_title s).length = s.length ∧
    TCD.sanitize_title (TCD.sanitize_title s) = TCD.sanitize_title s := by
  refine ⟨?_, ?_, ?_⟩
  · rw [sanitize_data_map] at hp
    exact sanitize_zip_mem s.data p hp
  · show (TCD.sanitize_title s).data.length = s.data.length
    rw [sanitize_data_map]
    exact s.data.length_map _
  · show String.mk ((TCD.sanitize_title s).data.map _) = TCD.sanitize_title s
    rw [sanitize_data_map, List.map_map]
    congr 1
    apply List.map_congr_left
    intro c _
    by_cases hc : c ∈ TCD.invalid_filename_chars <;> simp [Function.comp, hc]

/-- Witness for C6 at the concrete title "a/b": the slash is mapped to an
underscore, length is preserved, and a second sanitization pass changes
nothing. -/
theorem sanitize_title_spec_witness :
    ((('/', '_') : Char × Char) ∈
        "a/b".data.zip (TCD.sanitize_title "a/b").data) ∧
    ((('/', '_') : Char × Char).2 =
        if (('/', '_') : Char × Char).1 ∈ TCD.invalid_filename_chars then '_'
        else (('/', '_') : Char × Char).1) ∧
    (TCD.sanitize_title "a/b").length = ("a/b" : String).length ∧
    TCD.sanitize_title (TCD.sanitize_title "a/b") = TCD.sanitize_title "a/b" := by
  have h := sanitize_title_spec "a/b" ('/', '_') (by decide)
  exact ⟨by decide, h.1, h.2.1, h.2.2⟩

theorem filter_orderedInsert (v : Nat) (a : TCD.ClipRecord) (l : List TCD.ClipRecord) :
    (List.orderedInsert TCD.viewOrd a l).filter (fun c => c.view_count == v) =
      (if a.view_count = v then [a] else []) ++ l.filter (fun c => c.view_count == v) := by
  induction l with
  | nil => simp [List.orderedInsert, List.filter]; split <;> simp_all
  | cons b t ih =>
    by_cases hab : TCD.viewOrd a b
    · by_cases hav : a.view_count = v <;>
        simp [List.orderedInsert, hab, List.filter_cons, hav]
    · have hlt : a.view_count < b.view_count := by
        simpa [TCD.viewOrd, Nat.not_le] using hab
      simp only [List.orderedInsert, if_neg hab, List.filter_cons, ih]
      by_cases hav : a.view_count = v
      · have hbv : (b.view_count == v) = false := by
          simp only [beq_eq_false_iff_ne]; omega
        simp [hbv, hav]
      · simp [hav]

theorem rank_clips_stable_filter (v : Nat) (l : List TCD.ClipRecord) :
    (TCD.rank_clips l).filter (fun c => c.view_count == v) =
      l.filter (fun c => c.view_count == v) := by
  induction l with
  | nil => rfl
  | cons a t ih =>
    simp only [TCD.rank_clips, List.insertionSort] at ih ⊢
    rw [filter_orderedInsert, ih, List.filter_cons]
    split <;> simp_all

/-- Claim C3: the Ranker's output is a permutation of its input, sorted by
view_count non-increasing, and stable: for every view-count value the
records holding it appear in the output exactly in their input order. -/
theorem rank_clips_spec (l : List TCD.ClipRecord) :
    List.Perm (TCD.rank_clips l) l ∧
    List.Sorted TCD.viewOrd (TCD.rank_clips l) ∧
    ∀ v : Nat, (TCD.rank_clips l).filter (fun c => c.view_count == v) =
      l.filter (fun c => c.view_count == v) :=
  ⟨List.perm_insertionSort TCD.viewOrd l,
   List.sorted_insertionSort TCD.viewOrd l,
   fun v => rank_clips_stable_filter v l⟩

namespace TCD

/-! ## Clip Lister parsing (twitch_clip_downloader.py lines 96-133).
The external tool's stdout is split into lines; empty lines are skipped;
json.loads is modelled by a decoder argument returning a JLine; a
JSONDecodeError line is skipped by the inner except (line 125); a valid
JSON line that is not an object makes the dict access raise AttributeError,
which the outer except (line 131) turns into an empty overall result. -/

/-- The per-line loop of scrape_clips (lines 107-126), with the outer
exception handler reported as `none`. -/
def scrape_loop (jdec : String → JLine) (username : String) :
    List String → List ClipRecord → Option (List ClipRecord)
  | [], acc => some acc
  | l :: ls, acc =>
    if l = "" then scrape_loop jdec username ls acc
    else
      match jdec l with
      | JLine.bad => scrape_loop jdec username ls acc
      | JLine.nonobj => none
      | JLine.obj o => scrape_loop jdec username ls (acc ++ [build_clip username o])

/-- The list of clips scrape_clips builds from the tool's stdout
(lines 106-129 plus the outer except of line 131 returning []). -/
def scrape_result (jdec : String → JLine) (username stdout : String) : List ClipRecord :=
  (scrape_loop jdec username (pySplitNL (pyStrip stdout)) []).getD []

/-- The non-empty lines of the tool's stdout (the lines actually parsed). -/
def clipLines (stdout : String) : List String :=
  (pySplitNL (pyStrip stdout)).filter (fun l => l != "")

/-- Number of non-empty stdout lines skipped as malformed JSON. -/
def skippedCount (jdec : String → JLine) (stdout : String) : Nat :=
  (clipLines stdout).countP (fun l => jdec l == JLine.bad)

/-! ## External environment and traced world of the CLI module. -/

/-- Outcomes of the external collaborators of twitch_clip_downloader.py:
dependency probes, the yt-dlp listing invocation (return code and stdout)
and the yt-dlp download invocation (return code zero?, output file
created?). -/
structure Env where
  deps_ok : Bool
  listing : List String → Int × String
  jdec : String → JLine
  dl : List String → Bool × Bool

/-- Observable state threaded through a run: files existing on disk,
external commands spawned, files written by this program, and the log lines
the claims refer to (other prints are not tracked). -/
structure World where
  files : List String
  calls : List (List String)
  writes : List String
  log : List String
deriving DecidableEq, Repr

/-- twitch_clip_downloader.py lines 87-94: the listing command built by the
CLI scrape_clips.  Note that no date filter of any kind is part of it. -/
def cli_scrape_command (username : String) (min_views limit : Nat) : List String :=
  ["yt-dlp", "--flat-playlist", "--dump-json",
   "https://www.twitch.tv/" ++ username ++ "/clips",
   "--match-filter", "view_count >= " ++ toString min_views,
   "--playlist-end", toString limit]

/-- twitch_clip_downloader.py lines 68-133: run the listing command and
parse its stdout.  The hours argument only selects the period shown in a
printed URL (lines 74-83); it does not influence the command. -/
def scrape_clips (env : Env) (username : String) (hours limit min_views : Nat)
    (w : World) : List ClipRecord × World :=
  let command := cli_scrape_command username min_views limit
  let res := env.listing command
  let w1 : World := { w with calls := w.calls ++ [command] }
  if res.1 ≠ 0 then ([], w1)
  else (scrape_result env.jdec username res.2, w1)

/-! ## Clip Downloader (twitch_clip_downloader.py lines 135-188). -/

/-- Lines 144-152: the destination path derived from broadcaster, sanitized
title and output format. -/
def clip_output_path (clip : ClipRecord) (output_dir output_format : String) : String :=
  pathJoin output_dir
    (clip.broadcaster_name ++ " - " ++ sanitize_title clip.title ++ "." ++ output_format)

/-- Lines 162-167: the yt-dlp download command. -/
def download_command (clip : ClipRecord) (output_path : String) : List String :=
  ["yt-dlp", "-o", output_path, "-f", "best", clip.url]

/-- Lines 135-188: download one clip.  Empty URL is rejected; an existing
destination file short-circuits; otherwise the tool is invoked, its exit
status checked and the materialized file verified. -/
def download_clip (env : Env) (clip : ClipRecord) (output_dir output_format : String)
    (w : World) : Option String × World :=
  if clip.url = "" then (none, w)
  else
    let output_path := clip_output_path clip output_dir output_format
    if output_path ∈ w.files then (some output_path, w)
    else
      let command := download_command clip output_path
      let res := env.dl command
      let w1 : World := { w with
        files := if res.2 then w.files ++ [output_path] else w.files,
        calls := w.calls ++ [command] }
      if res.1 = false then (none, w1)
      else if output_path ∈ w1.files then (some output_path, w1)
      else (none, w1)

/-! ## Metadata and Instructions emitters (lines 190-277); file contents are
not modelled, only which paths are written. -/

/-- Line 193: sidecar path with the extension replaced by .json. -/
def metadata_path (video_path : String) : String :=
  rsplitDotBase video_path ++ ".json"

/-- Lines 190-221: write the metadata sidecar for a downloaded clip. -/
def create_metadata_file (clip : ClipRecord) (video_path : String) (w : World) :
    Option String × World :=
  let p := metadata_path video_path
  (some p, { w with files := w.files ++ [p], writes := w.writes ++ [p] })

/-- Line 258: the instructions file path. -/
def instructions_path (output_dir : String) : String :=
  pathJoin output_dir "upload_instructions.txt"

/-- Lines 223-277: write the upload instructions file; a no-op when nothing
was downloaded (lines 225-226). -/
def generate_platform_instructions (downloaded : List (ClipRecord × String))
    (output_dir : String) (w : World) : World :=
  if downloaded.isEmpty then w
  else
    { w with files := w.files ++ [instructions_path output_dir],
             writes := w.writes ++ [instructions_path output_dir] }

/-! ## Orchestrator (twitch_clip_downloader.py lines 279-328). -/

/-- The command-line arguments of lines 21-33 with their defaults. -/
structure Args where
  streamer : String
  hours : Nat := 24
  limit : Nat := 5
  output_dir : String := "downloads"
  min_views : Nat := 0
  metadata : Bool := false
  format : String := "mp4"
deriving DecidableEq, Repr

/-- The summary main reports (line 325): clips found and clips downloaded. -/
structure Summary where
  found : Nat
  downloaded : Nat
deriving DecidableEq, Repr

/-- Line 303: the early-exit message when the listing is empty. -/
def no_clips_message (streamer : String) (hours : Nat) : String :=
  "No clips found for " ++ streamer ++ " in the last " ++ toString hours ++ " hours."

/-- Lines 310-323: the per-clip download loop, with the conditional metadata
emission and the accumulation of successes. -/
def main_download_loop (env : Env) (args : Args) :
    List ClipRecord → World → List (ClipRecord × String) × World
  | [], w => ([], w)
  | c :: cs, w =>
    let res := download_clip env c args.output_dir args.format w
    let w1 := match res.1 with
      | some p => if args.metadata then (create_metadata_file c p res.2).2 else res.2
      | none => res.2
    let rest := main_download_loop env args cs w1
    (match res.1 with
     | some p => (c, p) :: rest.1
     | none => rest.1, rest.2)

/-- Lines 279-328: the whole orchestration run.  A missing dependency
terminates the process (modelled as `none`); an empty listing exits early
with the no-clips message; otherwise clips are ranked, downloaded (with
optional metadata) and the instructions file is emitted. -/
def main (env : Env) (args : Args) (w : World) : Option Summary × World :=
  if env.deps_ok = false then (none, w)
  else
    let scraped := scrape_clips env args.streamer args.hours args.limit args.min_views w
    if scraped.1.isEmpty then
      (some ⟨0, 0⟩,
       { scraped.2 with log := scraped.2.log ++ [no_clips_message args.streamer args.hours] })
    else
      let ranked := rank_clips scraped.1
      let dl := main_download_loop env args ranked scraped.2
      let w3 := generate_platform_instructions dl.1 args.output_dir dl.2
      (some ⟨scraped.1.length, dl.1.length⟩, w3)

end TCD

/-! ## Theorems for claim C2 (Lister parse tolerance and the skipped count) -/

theorem scrape_loop_ok (jdec : String → TCD.JLine) (username : String) :
    ∀ (ls : List String) (acc : List TCD.ClipRecord),
      (∀ l ∈ ls, l ≠ "" → jdec l ≠ TCD.JLine.nonobj) →
      TCD.scrape_loop jdec username ls acc =
        some (acc ++ (ls.filter (fun l => l != "")).filterMap (fun l =>
          match jdec l with
          | TCD.JLine.obj o => some (TCD.build_clip username o)
          | _ => none)) := by
  intro ls
  induction ls with
  | nil => intro acc _; simp [TCD.scrape_loop]
  | cons l t ih =>
    intro acc h
    by_cases hl : l = ""
    · subst hl
      simp only [TCD.scrape_loop, if_pos rfl]
      rw [ih acc (fun x hx => h x (List.mem_cons_of_mem _ hx))]
      simp
    · have hno : jdec l ≠ TCD.JLine.nonobj := h l (List.mem_cons_self _ _) hl
      simp only [TCD.scrape_loop, if_neg hl]
      have hfc : (l :: t).filter (fun x => x != "") =
          l :: t.filter (fun x => x != "") := by
        simp [List.filter_cons, hl]
      rw [hfc]
      cases hj : jdec l with
      | bad =>
        dsimp only
        rw [ih acc (fun x hx => h x (List.mem_cons_of_mem _ hx))]
        simp [List.filterMap_cons, hj]
      | nonobj => exact absurd hj hno
      | obj o =>
        dsimp only
        rw [ih (acc ++ [TCD.build_clip username o])
          (fun x hx => h x (List.mem_cons_of_mem _ hx))]
        simp [List.filterMap_cons, hj]

theorem filterMap_obj_length (jdec : String → TCD.JLine) (username : String) :
    ∀ ls : List String,
      (∀ l ∈ ls, jdec l ≠ TCD.JLine.nonobj) →
      (ls.filterMap (fun l =>
        match jdec l with
        | TCD.JLine.obj o => some (TCD.build_clip username o)
        | _ => none)).length =
        ls.length - ls.countP (fun l => jdec l == TCD.JLine.bad) := by
  intro ls
  induction ls with
  | nil => intro _; simp
  | cons l t ih =>
    intro h
    have hcle : t.countP (fun l => jdec l == TCD.JLine.bad) ≤ t.length :=
      List.countP_le_length _
    have ht := ih (fun x hx => h x (List.mem_cons_of_mem _ hx))
    cases hj : jdec l with
    | bad =>
      simp only [List.filterMap_cons, List.countP_cons, List.length_cons, hj]
      simp only [ht]
      have : (TCD.JLine.bad == TCD.JLine.bad) = true := by decide
      simp only [this, if_pos]
      omega
    | nonobj => exact absurd hj (h l (List.mem_cons_self _ _))
    | obj o =>
      simp only [List.filterMap_cons, List.countP_cons, List.length_cons, hj]
      simp only [List.length_cons, ht]
      have : (TCD.JLine.obj o == TCD.JLine.bad) = false := by
        simp [instBEqOfDecidableEq]
      simp only [this, if_neg, Bool.false_eq_true, if_false]
      omega

/-- Claim C2 (amended): for stdout whose non-empty lines each either fail
JSON parsing or parse to a JSON object, the Lister does not throw, skips
exactly the malformed lines, and produces one ClipRecord per object line in
order, so its length is N - K for N non-empty lines of which K are
malformed.  It returns only this sequence; no count of skipped lines is
part of the result (see the counterexample theorem). -/
theorem scrape_clips_parse_spec (jdec : String → TCD.JLine) (username stdout : String)
    (hobj : ∀ l ∈ TCD.clipLines stdout, jdec l ≠ TCD.JLine.nonobj) :
    TCD.scrape_result jdec username stdout =
      (TCD.clipLines stdout).filterMap (fun l =>
        match jdec l with
        | TCD.JLine.obj o => some (TCD.build_clip username o)
        | _ => none) ∧
    (TCD.scrape_result jdec username stdout).length =
      (TCD.clipLines stdout).length - TCD.skippedCount jdec stdout := by
  have h' : ∀ l ∈ pySplitNL (pyStrip stdout), l ≠ "" → jdec l ≠ TCD.JLine.nonobj := by
    intro l hl hne
    exact hobj l (by simp [TCD.clipLines, List.mem_filter, hl, hne])
  have hres : TCD.scrape_result jdec username stdout =
      (TCD.clipLines stdout).filterMap (fun l =>
        match jdec l with
        | TCD.JLine.obj o => some (TCD.build_clip username o)
        | _ => none) := by
    unfold TCD.scrape_result TCD.clipLines
    rw [scrape_loop_ok jdec username _ [] h']
    simp
  refine ⟨hres, ?_⟩
  rw [hres]
  exact filterMap_obj_length jdec username _ hobj

/-- A decoder consistent with json.loads on the witness stdout below: the
two-character line consisting of an opening and a closing curly brace is the
empty JSON object; the other lines used are not valid JSON. -/
def jdecSample : String → TCD.JLine := fun l =>
  if l = "\x7b\x7d" then TCD.JLine.obj {} else TCD.JLine.bad

/-- Witness for C2 on a concrete stdout of three non-empty lines of which
one is malformed: the result has the two object records and length 3 - 1. -/
theorem scrape_clips_parse_spec_witness :
    TCD.scrape_result jdecSample "user" "\x7b\x7d\nnotjson\n\x7b\x7d" =
      [TCD.build_clip "user" {}, TCD.build_clip "user" {}] ∧
    (TCD.scrape_result jdecSample "user" "\x7b\x7d\nnotjson\n\x7b\x7d").length = 3 - 1 := by
  have h := scrape_clips_parse_spec jdecSample "user" "\x7b\x7d\nnotjson\n\x7b\x7d"
    (by decide)
  refine ⟨?_, ?_⟩
  · rw [h.1]; decide
  · rw [h.2]; decide

/-- A decoder consistent with json.loads on inputs that are never valid
JSON (such as the line "notjson" below). -/
def jdecAllBad : String → TCD.JLine := fun _ => TCD.JLine.bad

/-- Claim C2 counterexample: the Lister does not return the count of skipped
lines together with the records.  Its result for a stdout with one skipped
line is identical to its result for a stdout with none, so no function of
the returned value can recover the skipped count, and in particular the
count is not part of what is returned. -/
theorem scrape_clips_no_skip_count :
    TCD.scrape_result jdecAllBad "user" "notjson" = TCD.scrape_result jdecAllBad "user" "" ∧
    TCD.skippedCount jdecAllBad "notjson" = 1 ∧
    TCD.skippedCount jdecAllBad "" = 0 ∧
    ¬ ∃ f : List TCD.ClipRecord → Nat,
        ∀ stdout : String,
          f (TCD.scrape_result jdecAllBad "user" stdout) =
            TCD.skippedCount jdecAllBad stdout := by
  refine ⟨by decide, by decide, by decide, ?_⟩
  rintro ⟨f, hf⟩
  have h1 := hf "notjson"
  have h2 := hf ""
  have e1 : TCD.scrape_result jdecAllBad "user" "notjson" = [] := by decide
  have e2 : TCD.scrape_result jdecAllBad "user" "" = [] := by decide
  have s1 : TCD.skippedCount jdecAllBad "notjson" = 1 := by decide
  have s2 : TCD.skippedCount jdecAllBad "" = 0 := by decide
  rw [e1, s1] at h1
  rw [e2, s2] at h2
  omega

/-! ## Theorems for claim C5 (Downloader idempotence) -/

/-- Claim C5: for a clip with non-empty URL, when the derived destination
file already exists the Downloader returns that path without invoking the
external tool (world unchanged); and starting from a world without the
file, in an environment where the download invocation succeeds and
materializes the file, two successive calls both return the path and
perform exactly one external invocation in total. -/
theorem download_clip_idempotent (env : TCD.Env) (clip : TCD.ClipRecord)
    (output_dir output_format : String) (w : TCD.World)
    (hurl : clip.url ≠ "")
    (henv : env.dl (TCD.download_command clip
      (TCD.clip_output_path clip output_dir output_format)) = (true, true)) :
    (TCD.clip_output_path clip output_dir output_format ∈ w.files →
      TCD.download_clip env clip output_dir output_format w =
        (some (TCD.clip_output_path clip output_dir output_format), w)) ∧
    (TCD.clip_output_path clip output_dir output_format ∉ w.files →
      (TCD.download_clip env clip output_dir output_format w).1 =
        some (TCD.clip_output_path clip output_dir output_format) ∧
      (TCD.download_clip env clip output_dir output_format
          (TCD.download_clip env clip output_dir output_format w).2).1 =
        some (TCD.clip_output_path clip output_dir output_format) ∧
      (TCD.download_clip env clip output_dir output_format
          (TCD.download_clip env clip output_dir output_format w).2).2.calls =
        w.calls ++ [TCD.download_command clip
          (TCD.clip_output_path clip output_dir output_format)]) := by
  constructor
  · intro hmem
    unfold TCD.download_clip
    rw [if_neg hurl, if_pos hmem]
  · intro hmem
    have hfirst : TCD.download_clip env clip output_dir output_format w =
        (some (TCD.clip_output_path clip output_dir output_format),
         { w with
           files := w.files ++ [TCD.clip_output_path clip output_dir output_format],
           calls := w.calls ++ [TCD.download_command clip
             (TCD.clip_output_path clip output_dir output_format)] }) := by
      unfold TCD.download_clip
      rw [if_neg hurl, if_neg hmem]
      simp only [henv]
      simp
    have hmem1 : TCD.clip_output_path clip output_dir output_format ∈
        (w.files ++ [TCD.clip_output_path clip output_dir output_format]) := by
      simp
    have hsecond : TCD.download_clip env clip output_dir output_format
        { w with
          files := w.files ++ [TCD.clip_output_path clip output_dir output_format],
          calls := w.calls ++ [TCD.download_command clip
            (TCD.clip_output_path clip output_dir output_format)] } =
        (some (TCD.clip_output_path clip output_dir output_format),
         { w with
           files := w.files ++ [TCD.clip_output_path clip output_dir output_format],
           calls := w.calls ++ [TCD.download_command clip
             (TCD.clip_output_path clip output_dir output_format)] }) := by
      unfold TCD.download_clip
      rw [if_neg hurl, if_pos hmem1]
    rw [hfirst]
    refine ⟨rfl, ?_, ?_⟩
    · rw [hsecond]
    · rw [hsecond]

/-- The environment for the C5 witness: the download invocation exits zero
and creates the file. -/
def c5Env : TCD.Env :=
  { deps_ok := true, listing := fun _ => (0, ""), jdec := fun _ => TCD.JLine.bad,
    dl := fun _ => (true, true) }

/-- The clip for the C5 witness. -/
def c5Clip : TCD.ClipRecord :=
  { id := "1", title := "t", url := "u", thumbnail_url := "", view_count := 0,
    duration := 0, created_at := "", broadcaster_name := "b" }

/-- The empty starting world. -/
def emptyWorld : TCD.World :=
  { files := [], calls := [], writes := [], log := [] }

/-- Witness for C5: from an empty world, two successive calls for the same
clip and directory record exactly one external invocation, and the second
call returns the existing path. -/
theorem download_clip_idempotent_witness :
    (TCD.download_clip c5Env c5Clip "downloads" "mp4"
        (TCD.download_clip c5Env c5Clip "downloads" "mp4" emptyWorld).2).1 =
      some (TCD.clip_output_path c5Clip "downloads" "mp4") ∧
    (TCD.download_clip c5Env c5Clip "downloads" "mp4"
        (TCD.download_clip c5Env c5Clip "downloads" "mp4" emptyWorld).2).2.calls =
      [TCD.download_command c5Clip (TCD.clip_output_path c5Clip "downloads" "mp4")] := by
  have h := download_clip_idempotent c5Env c5Clip "downloads" "mp4" emptyWorld
    (by decide) rfl
  have h2 := h.2 (by decide)
  exact ⟨h2.2.1, h2.2.2⟩

/-! ## Theorems for claim C9 (Orchestrator early exit on empty listing) -/

theorem scrape_clips_world (env : TCD.Env) (username : String)
    (hours limit min_views : Nat) (w : TCD.World) :
    (TCD.scrape_clips env username hours limit min_views w).2 =
      { w with calls := w.calls ++ [TCD.cli_scrape_command username min_views limit] } := by
  unfold TCD.scrape_clips
  dsimp only
  split <;> rfl

/-- Claim C9: when the listing step returns an empty sequence, main reports
zero found and zero downloaded and terminates early: the final world shows
exactly the one listing invocation and the no-clips log line; no download
command is spawned and no metadata or instructions file is written. -/
theorem main_empty_listing (env : TCD.Env) (args : TCD.Args) (w : TCD.World)
    (hdeps : env.deps_ok = true)
    (hempty : (TCD.scrape_clips env args.streamer args.hours args.limit
      args.min_views w).1 = []) :
    TCD.main env args w =
      (some ⟨0, 0⟩,
       { w with
         calls := w.calls ++ [TCD.cli_scrape_command args.streamer args.min_views args.limit],
         log := w.log ++ [TCD.no_clips_message args.streamer args.hours] }) := by
  have hw := scrape_clips_world env args.streamer args.hours args.limit args.min_views w
  unfold TCD.main
  rw [hdeps]
  simp only [Bool.true_eq_false, if_false, hempty, hw, List.isEmpty_nil, if_true]

/-- The environment for the C9 witness: the listing tool exits non-zero, so
the listing step yields the empty sequence. -/
def c9Env : TCD.Env :=
  { deps_ok := true, listing := fun _ => (1, ""), jdec := fun _ => TCD.JLine.bad,
    dl := fun _ => (false, false) }

/-- The arguments for the C9 witness (all defaults, streamer "streamer"). -/
def c9Args : TCD.Args :=
  { streamer := "streamer" }

/-- Witness for C9: from the empty world, the run ends with summary 0/0,
only the listing call in the trace, no writes, and the no-clips message. -/
theorem main_empty_listing_witness :
    TCD.main c9Env c9Args emptyWorld =
      (some ⟨0, 0⟩,
       { files := [], calls := [TCD.cli_scrape_command "streamer" 0 5],
         writes := [], log := [TCD.no_clips_message "streamer" 24] }) := by
  have h := main_empty_listing c9Env c9Args emptyWorld rfl (by decide)
  exact h

namespace GUI

/-! ## GUI Lister date filter (simple_gui.py lines 292-385).
datetime.now() is modelled by its calendar day number (days since
1970-01-01): subtracting timedelta(hours=24) (resp. days=7, days=30) from a
naive datetime moves its date back by exactly 1 (resp. 7, 30) days, and
strftime("%Y%m%d") depends only on the date.  Day numbers are converted to
the Gregorian year/month/day by the standard civil-from-days algorithm and
rendered zero-padded as 4+2+2 digits. -/

/-- Year-of-era, month and day from a day-of-era in [0, 146096]. -/
def civilOfDoe (doe : Nat) : Nat × Nat × Nat :=
  let yoe : Nat := (doe - doe / 1460 + doe / 36524 - doe / 146096) / 365
  let doy : Nat := doe - (365 * yoe + yoe / 4 - yoe / 100)
  let mp : Nat := (5 * doy + 2) / 153
  let d : Nat := doy - (153 * mp + 2) / 5 + 1
  let m : Nat := if mp < 10 then mp + 3 else mp - 9
  (yoe, m, d)

/-- Gregorian (year, month, day) of a day number (1970-01-01 is day 0).
Division and remainder on Int are floor-based for the positive modulus
used here. -/
def civilFromDays (z : Int) : Int × Nat × Nat :=
  let zd : Int := z + 719468
  let era : Int := zd / 146097
  let doe : Nat := (zd % 146097).toNat
  let c := civilOfDoe doe
  let y : Int := (c.1 : Int) + era * 400
  (y + (if c.2.1 ≤ 2 then 1 else 0), c.2.1, c.2.2)

/-- The decimal digit character for n % 10. -/
def digitChar (n : Nat) : Char :=
  Char.ofNat (48 + n % 10)

/-- Decimal digits, most significant first: fuel-based worker so the
definition reduces in the kernel. -/
def decDigitsAux : Nat → Nat → List Char
  | 0, _ => []
  | fuel + 1, n =>
    if n < 10 then [digitChar n]
    else decDigitsAux fuel (n / 10) ++ [digitChar (n % 10)]

/-- Decimal digits of a natural number, most significant first. -/
def decDigits (n : Nat) : List Char :=
  decDigitsAux (n + 1) n

/-- Decimal rendering zero-padded on the left to the given width. -/
def padDigits (width n : Nat) : List Char :=
  List.replicate (width - (decDigits n).length) '0' ++ decDigits n

/-- strftime("%Y%m%d") of the date with the given day number (years of at
most four digits; the year field is zero-padded to width 4 as glibc does
for the dates in scope here). -/
def formatYYYYMMDD (z : Int) : String :=
  String.mk (padDigits 4 (civilFromDays z).1.toNat ++
    padDigits 2 (civilFromDays z).2.1 ++ padDigits 2 (civilFromDays z).2.2)

/-- simple_gui.py lines 367-385 (get_date_filter): map the period token to
now minus a timedelta and format the date as YYYYMMDD; unknown periods
default to 24 hours. -/
def get_date_filter (now_days : Int) (period : String) : String :=
  let date : Int :=
    if period = "24h" then now_days - 1
    else if period = "7d" then now_days - 7
    else if period = "30d" then now_days - 30
    else now_days - 1
  formatYYYYMMDD date

/-- simple_gui.py lines 309-316: the base listing command of the GUI
scrape_clips (identical to the CLI one). -/
def gui_base_command (username : String) (limit min_views : Nat) : List String :=
  ["yt-dlp", "--flat-playlist", "--dump-json",
   "https://www.twitch.tv/" ++ username ++ "/clips",
   "--match-filter", "view_count >= " ++ toString min_views,
   "--playlist-end", toString limit]

/-- simple_gui.py lines 309-320: the full listing command; for a period
other than "all" the base command is extended with the dateafter filter. -/
def gui_scrape_command (now_days : Int) (username period : String)
    (limit min_views : Nat) : List String :=
  if period ≠ "all" then
    gui_base_command username limit min_views ++
      ["--dateafter", get_date_filter now_days period]
  else gui_base_command username limit min_views

end GUI

/-! ## Theorems for claim C4 (date filter of the listing request) -/

theorem civilOfDoe_bounds (doe : Nat) (h : doe ≤ 146096) :
    (GUI.civilOfDoe doe).2.1 < 100 ∧ (GUI.civilOfDoe doe).2.2 < 100 := by
  unfold GUI.civilOfDoe
  dsimp only
  refine ⟨?_, ?_⟩
  · split <;> omega
  · omega

theorem civilFromDays_md_bounds (z : Int) :
    (GUI.civilFromDays z).2.1 < 100 ∧ (GUI.civilFromDays z).2.2 < 100 := by
  have hdoe : ((z + 719468) % 146097).toNat ≤ 146096 := by omega
  have h := civilOfDoe_bounds _ hdoe
  unfold GUI.civilFromDays
  dsimp only
  exact h

theorem decDigitsAux_fuel_eq (n : Nat) : ∀ f1 f2, n < f1 → n < f2 →
    GUI.decDigitsAux f1 n = GUI.decDigitsAux f2 n := by
  induction n using Nat.strong_induction_on with
  | _ n ih =>
    intro f1 f2 h1 h2
    match f1, f2 with
    | g1 + 1, g2 + 1 =>
      simp only [GUI.decDigitsAux]
      by_cases h10 : n < 10
      · simp [h10]
      · have hlt : n / 10 < n := Nat.div_lt_self (by omega) (by omega)
        rw [if_neg h10, if_neg h10, ih (n / 10) hlt g1 g2 (by omega) (by omega)]

theorem decDigits_unfold (n : Nat) :
    GUI.decDigits n = if n < 10 then [GUI.digitChar n]
      else GUI.decDigits (n / 10) ++ [GUI.digitChar (n % 10)] := by
  show GUI.decDigitsAux (n + 1) n = _
  simp only [GUI.decDigitsAux]
  by_cases h10 : n < 10
  · simp [h10]
  · have hlt : n / 10 < n := Nat.div_lt_self (by omega) (by omega)
    rw [if_neg h10, if_neg h10,
      decDigitsAux_fuel_eq (n / 10) n (n / 10 + 1) (by omega) (by omega)]
    rfl

theorem decDigits_ne_nil (n : Nat) : GUI.decDigits n ≠ [] := by
  rw [decDigits_unfold]
  split <;> simp

theorem decDigits_length_le (k : Nat) :
    ∀ n, 0 < k → n < 10 ^ k → (GUI.decDigits n).length ≤ k := by
  induction k with
  | zero => intro n h _; omega
  | succ k ih =>
    intro n _ hn
    rw [decDigits_unfold]
    split
    · simp
    · rename_i h10
      have hk : 0 < k := by
        by_contra hk0
        have hkz : k = 0 := by omega
        subst hkz
        simp at hn
        omega
      have hmul : n < 10 ^ k * 10 := by rw [← pow_succ]; exact hn
      have hdiv : n / 10 < 10 ^ k := by omega
      have := ih (n / 10) hk hdiv
      simp only [List.length_append, List.length_cons, List.length_nil]
      omega

theorem decDigits_length_ge (k : Nat) :
    ∀ n, 10 ^ k ≤ n → k + 1 ≤ (GUI.decDigits n).length := by
  induction k with
  | zero =>
    intro n _
    have h := decDigits_ne_nil n
    cases hd : GUI.decDigits n with
    | nil => exact absurd hd h
    | cons a t => simp
  | succ k ih =>
    intro n hn
    rw [decDigits_unfold]
    split
    · rename_i h10
      exfalso
      have hpow : (10 : Nat) ≤ 10 ^ (k + 1) := by
        calc (10 : Nat) = 10 ^ 1 := (pow_one 10).symm
        _ ≤ 10 ^ (k + 1) := Nat.pow_le_pow_right (by omega) (by omega)
      omega
    · have hmul : 10 ^ k * 10 ≤ n := by rw [← pow_succ]; exact hn
      have hdiv : 10 ^ k ≤ n / 10 := by omega
      have := ih (n / 10) hdiv
      simp only [List.length_append, List.length_cons, List.length_nil]
      omega

theorem padDigits_length (width n : Nat) :
    (GUI.padDigits width n).length = max width (GUI.decDigits n).length := by
  simp only [GUI.padDigits, List.length_append, List.length_replicate]
  omega

theorem formatYYYYMMDD_length (z : Int)
    (hy1 : 1000 ≤ (GUI.civilFromDays z).1) (hy2 : (GUI.civilFromDays z).1 ≤ 9999) :
    (GUI.formatYYYYMMDD z).length = 8 := by
  have hmd := civilFromDays_md_bounds z
  have hy_le := decDigits_length_le 4 (GUI.civilFromDays z).1.toNat (by omega)
    (by have : (10 : Nat) ^ 4 = 10000 := by norm_num
        omega)
  have hy_ge := decDigits_length_ge 3 (GUI.civilFromDays z).1.toNat
    (by have : (10 : Nat) ^ 3 = 1000 := by norm_num
        omega)
  have hm_le := decDigits_length_le 2 (GUI.civilFromDays z).2.1 (by omega)
    (by have : (10 : Nat) ^ 2 = 100 := by norm_num
        omega)
  have hd_le := decDigits_length_le 2 (GUI.civilFromDays z).2.2 (by omega)
    (by have : (10 : Nat) ^ 2 = 100 := by norm_num
        omega)
  show (GUI.padDigits 4 (GUI.civilFromDays z).1.toNat ++
    GUI.padDigits 2 (GUI.civilFromDays z).2.1 ++
    GUI.padDigits 2 (GUI.civilFromDays z).2.2).length = 8
  simp only [List.length_append, padDigits_length]
  omega

/-- The environment for the C4 counterexample run of the CLI Lister. -/
def c4Env : TCD.Env :=
  { deps_ok := true, listing := fun _ => (0, ""), jdec := fun _ => TCD.JLine.bad,
    dl := fun _ => (false, false) }

/-- Claim C4 counterexample: the CLI Lister (twitch_clip_downloader.py
scrape_clips), asked for the last-24-hours window (hours = 24, not
all-time), issues a listing command that contains no "--dateafter" date
filter at all, contradicting the claim that every non-all-time window adds
one. -/
theorem cli_scrape_no_date_filter :
    (TCD.scrape_clips c4Env "streamer" 24 5 0 emptyWorld).2.calls =
      [TCD.cli_scrape_command "streamer" 0 5] ∧
    "--dateafter" ∉ TCD.cli_scrape_command "streamer" 0 5 := by
  refine ⟨by decide, by decide⟩

/-- Claim C4 (amended): the GUI Lister adds, for each enumerated window
other than all-time, a "--dateafter" filter equal to now minus the window's
duration (1, 7 or 30 days) formatted as YYYYMMDD, and adds no filter for
"all"; the formatted date has exactly 8 digits for four-digit years.  The
CLI Lister, by contrast, never adds a date filter (see the counterexample
theorem). -/
theorem gui_date_filter_spec (now_days : Int) (username : String)
    (limit min_views : Nat) (z : Int)
    (hy1 : 1000 ≤ (GUI.civilFromDays z).1) (hy2 : (GUI.civilFromDays z).1 ≤ 9999) :
    (GUI.gui_scrape_command now_days username "24h" limit min_views =
      GUI.gui_base_command username limit min_views ++
        ["--dateafter", GUI.formatYYYYMMDD (now_days - 1)]) ∧
    (GUI.gui_scrape_command now_days username "7d" limit min_views =
      GUI.gui_base_command username limit min_views ++
        ["--dateafter", GUI.formatYYYYMMDD (now_days - 7)]) ∧
    (GUI.gui_scrape_command now_days username "30d" limit min_views =
      GUI.gui_base_command username limit min_views ++
        ["--dateafter", GUI.formatYYYYMMDD (now_days - 30)]) ∧
    (GUI.gui_scrape_command now_days username "all" limit min_views =
      GUI.gui_base_command username limit min_views) ∧
    (GUI.formatYYYYMMDD z).length = 8 := by
  refine ⟨?_, ?_, ?_, ?_, formatYYYYMMDD_length z hy1 hy2⟩ <;>
    simp [GUI.gui_scrape_command, GUI.get_date_filter]

/-- Witness for C4 at day number 19000 (the date 2022-01-08): the 24h window
filter is the previous day 2022-01-07 rendered as 8 digits, and the
all-time window adds no filter. -/
theorem gui_date_filter_spec_witness :
    GUI.gui_scrape_command 19000 "streamer" "24h" 5 0 =
      GUI.gui_base_command "streamer" 5 0 ++
        ["--dateafter", GUI.formatYYYYMMDD (19000 - 1)] ∧
    GUI.gui_scrape_command 19000 "streamer" "all" 5 0 =
      GUI.gui_base_command "streamer" 5 0 ∧
    (GUI.formatYYYYMMDD 19000).length = 8 ∧
    GUI.formatYYYYMMDD (19000 - 1) = "20220107" := by
  have h := gui_date_filter_spec 19000 "streamer" 5 0 19000 (by decide) (by decide)
  exact ⟨h.1, h.2.2.2.1, h.2.2.2.2, by decide⟩

namespace VP

/-! ## video_processor.py: processing operations and the batch runner.

Each operation shells out to ffmpeg.  The environment fixes the outcome of
the ffmpeg presence probe (check_ffmpeg) and the exit status of each actual
transcoder invocation; the world traces spawned commands (with a snapshot
of the files existing at spawn time) and the files on disk.  Passing
Python's None where a string/path is required (subprocess argument,
os.path.splitext, os.path.abspath) raises TypeError, which none of the
operations catch — their except clauses only catch
subprocess.CalledProcessError; an escaping exception is an `Except.error`.
Print lines are logged with the exception text abstracted away. -/

/-- Exceptions of video_processor.py runs. -/
inductive PyErr where
  | typeError
  | calledProcessError
deriving DecidableEq, Repr

/-- External outcomes: check_ffmpeg result, per-command transcoder exit
status, the working directory (for os.path.abspath) and directory listings
(for the glob in list_video_files). -/
structure Env where
  ffmpeg_ok : Bool
  run_ok : List String → Bool
  cwd : String
  dirFiles : String → List String

/-- Files on disk (path with line contents), the spawned commands (each
with the file snapshot at spawn time) and the printed log. -/
structure World where
  files : List (String × List String)
  calls : List (List String × List (String × List String))
  log : List String
deriving DecidableEq, Repr

/-- os.path.exists. -/
def fileExists (w : World) (p : String) : Bool :=
  (w.files.lookup p).isSome

/-- Writing a file (open(p, "w") plus writes): replaces any previous
content. -/
def writeFile (w : World) (p : String) (content : List String) : World :=
  { w with files := w.files.filter (fun e => e.1 != p) ++ [(p, content)] }

/-- os.remove. -/
def removeFile (w : World) (p : String) : World :=
  { w with files := w.files.filter (fun e => e.1 != p) }

/-- print statements. -/
def addLog (w : World) (lines : List String) : World :=
  { w with log := w.log ++ lines }

/-- subprocess.run(command, check=True): a None argument raises TypeError
before any process is spawned; otherwise the spawn is recorded and a
non-zero exit becomes CalledProcessError. -/
def subprocess_run (env : Env) (command : List (Option String)) (w : World) :
    Except PyErr Unit × World :=
  if command.any (fun a => a.isNone) then (Except.error PyErr.typeError, w)
  else
    let c := command.map (fun a => a.getD "")
    let w1 : World := { w with calls := w.calls ++ [(c, w.files)] }
    if env.run_ok c then (Except.ok (), w1)
    else (Except.error PyErr.calledProcessError, w1)

/-- video_processor.py lines 33-66 (trim_video). -/
def trim_video (env : Env) (input_path output_path : Option String)
    (start_time : Int) (duration : Option Int) (w : World) :
    Except PyErr (Option String) × World :=
  if env.ffmpeg_ok = false then (Except.ok none, w)
  else
    match input_path, output_path with
    | none, none => (Except.error PyErr.typeError, w)
    | _, _ =>
      let outp := match output_path with
        | some p => p
        | none => (splitext (input_path.getD "")).1 ++ "_trimmed" ++
            (splitext (input_path.getD "")).2
      let command := [some "ffmpeg", some "-i", input_path, some "-ss",
          some (toString start_time)] ++
        (match duration with | some d => [some "-t", some (toString d)] | none => []) ++
        [some "-c", some "copy", some outp, some "-y"]
      match subprocess_run env command w with
      | (Except.ok _, w1) =>
        (Except.ok (some outp), addLog w1 ["Trimmed video saved to: " ++ outp])
      | (Except.error PyErr.calledProcessError, w1) =>
        (Except.ok none, addLog w1 ["Error trimming video"])
      | (Except.error e, w1) => (Except.error e, w1)

/-- video_processor.py lines 90-96: the watermark position table. -/
def watermark_positions : List (String × String) :=
  [("topleft", "10:10"), ("topright", "w-tw-10:10"), ("bottomleft", "10:h-th-10"),
   ("bottomright", "w-tw-10:h-th-10"), ("center", "(w-tw)/2:(h-th)/2")]

/-- video_processor.py line 103: the drawtext filter string. -/
def watermark_vf (text : String) (fontsize : Nat) (position_value : String) : String :=
  "drawtext=text=" ++ squote ++ text ++ squote ++ ":fontcolor=white:fontsize=" ++
    toString fontsize ++ ":box=1:boxcolor=black@0.5:boxborderw=5:x=" ++ position_value

/-- video_processor.py lines 68-113 (add_watermark): an unknown position
falls back to the bottomright coordinates via dict .get with default. -/
def add_watermark (env : Env) (input_path : Option String) (watermark_text : String)
    (output_path : Option String) (position : String) (fontsize : Nat) (w : World) :
    Except PyErr (Option String) × World :=
  if env.ffmpeg_ok = false then (Except.ok none, w)
  else
    match input_path, output_path with
    | none, none => (Except.error PyErr.typeError, w)
    | _, _ =>
      let outp := match output_path with
        | some p => p
        | none => (splitext (input_path.getD "")).1 ++ "_watermarked" ++
            (splitext (input_path.getD "")).2
      let position_value := (watermark_positions.lookup (pyLower position)).getD
        ((watermark_positions.lookup "bottomright").getD "")
      let command := [some "ffmpeg", some "-i", input_path, some "-vf",
        some (watermark_vf watermark_text fontsize position_value),
        some "-codec:a", some "copy", some outp, some "-y"]
      match subprocess_run env command w with
      | (Except.ok _, w1) =>
        (Except.ok (some outp), addLog w1 ["Watermarked video saved to: " ++ outp])
      | (Except.error PyErr.calledProcessError, w1) =>
        (Except.ok none, addLog w1 ["Error adding watermark"])
      | (Except.error e, w1) => (Except.error e, w1)

/-- video_processor.py line 139: the temporary concat list file name. -/
def concat_list_file : String :=
  "concat_list.txt"

/-- One line of the concat list (lines 141-142): file 'abspath'. -/
def concat_line (cwd p : String) : String :=
  "file " ++ squote ++ pyAbspath cwd p ++ squote

/-- video_processor.py lines 145-148: the concat command. -/
def concat_command (outp : String) : List String :=
  ["ffmpeg", "-f", "concat", "-safe", "0", "-i", concat_list_file, "-c", "copy",
   outp, "-y"]

/-- The output path used by add_intro (lines 134-136). -/
def intro_outp (input_path output_path : Option String) : String :=
  match output_path with
  | some p => p
  | none => (splitext (input_path.getD "")).1 ++ "_with_intro" ++
      (splitext (input_path.getD "")).2

/-- video_processor.py lines 115-160 (add_intro): write the two-line concat
list, invoke the transcoder, and remove the list afterwards on the success
path (line 154) as well as in the except branch (lines 158-159).  A None
input with a provided output writes the first list line and then raises
TypeError at os.path.abspath(None), leaving the temp file behind. -/
def add_intro (env : Env) (input_path : Option String) (intro_path : String)
    (output_path : Option String) (w : World) : Except PyErr (Option String) × World :=
  if env.ffmpeg_ok = false then (Except.ok none, w)
  else if fileExists w intro_path = false then
    (Except.ok none, addLog w ["Intro file not found: " ++ intro_path])
  else
    match input_path, output_path with
    | none, none => (Except.error PyErr.typeError, w)
    | _, _ =>
      let outp := intro_outp input_path output_path
      match input_path with
      | none =>
        (Except.error PyErr.typeError,
         writeFile w concat_list_file [concat_line env.cwd intro_path])
      | some inp =>
        let w1 := writeFile w concat_list_file
          [concat_line env.cwd intro_path, concat_line env.cwd inp]
        let command := (concat_command outp).map Option.some
        match subprocess_run env command w1 with
        | (Except.ok _, w2) =>
          (Except.ok (some outp),
           removeFile (addLog w2 ["Video with intro saved to: " ++ outp]) concat_list_file)
        | (Except.error PyErr.calledProcessError, w2) =>
          let w3 := addLog w2 ["Error adding intro"]
          (Except.ok none,
           if fileExists w3 concat_list_file then removeFile w3 concat_list_file else w3)
        | (Except.error e, w2) => (Except.error e, w2)

/-- video_processor.py lines 162-194 (convert_format). -/
def convert_format (env : Env) (input_path : Option String) (output_format : String)
    (output_path : Option String) (w : World) : Except PyErr (Option String) × World :=
  if env.ffmpeg_ok = false then (Except.ok none, w)
  else
    match input_path, output_path with
    | none, none => (Except.error PyErr.typeError, w)
    | _, _ =>
      let outp := match output_path with
        | some p => p
        | none => (splitext (input_path.getD "")).1 ++ "." ++ output_format
      let command := [some "ffmpeg", some "-i", input_path, some "-c:v", some "libx264",
        some "-c:a", some "aac", some outp, some "-y"]
      match subprocess_run env command w with
      | (Except.ok _, w1) =>
        (Except.ok (some outp), addLog w1 ["Converted video saved to: " ++ outp])
      | (Except.error PyErr.calledProcessError, w1) =>
        (Except.ok none, addLog w1 ["Error converting video"])
      | (Except.error e, w1) => (Except.error e, w1)

/-- video_processor.py lines 212-229: platform resolutions and descriptions
in dict insertion order. -/
def platform_settings : List (String × String × String) :=
  [("tiktok", "1080:1920", "TikTok (vertical 9:16)"),
   ("instagram", "1080:1080", "Instagram (square 1:1)"),
   ("instagram_story", "1080:1920", "Instagram Story (vertical 9:16)"),
   ("youtube", "1920:1080", "YouTube (horizontal 16:9)")]

/-- video_processor.py line 233: the enumeration printed on an unknown
platform, joined from the dict keys. -/
def supported_platforms_message : String :=
  "Supported platforms: " ++ String.intercalate ", " (platform_settings.map (fun e => e.1))

/-- video_processor.py line 245: the aspect-preserving scale/pad filter. -/
def resize_vf (resolution : String) : String :=
  "scale=" ++ resolution ++ ":force_original_aspect_ratio=decrease,pad=" ++
    resolution ++ ":(ow-iw)/2:(oh-ih)/2"

/-- video_processor.py lines 196-255 (resize_for_platform): an unknown
platform is rejected (enumeration printed) before any transcoder
invocation. -/
def resize_for_platform (env : Env) (input_path : Option String) (platform : String)
    (output_path : Option String) (w : World) : Except PyErr (Option String) × World :=
  if env.ffmpeg_ok = false then (Except.ok none, w)
  else
    match platform_settings.lookup (pyLower platform) with
    | none =>
      (Except.ok none,
       addLog w ["Unknown platform: " ++ platform, supported_platforms_message])
    | some settings =>
      match input_path, output_path with
      | none, none => (Except.error PyErr.typeError, w)
      | _, _ =>
        let outp := match output_path with
          | some p => p
          | none => (splitext (input_path.getD "")).1 ++ "_for_" ++ platform ++
              (splitext (input_path.getD "")).2
        let command := [some "ffmpeg", some "-i", input_path, some "-vf",
          some (resize_vf settings.1), some "-c:a", some "copy", some outp, some "-y"]
        match subprocess_run env command w with
        | (Except.ok _, w1) =>
          (Except.ok (some outp),
           addLog w1 ["Resized video for " ++ settings.2 ++ " saved to: " ++ outp])
        | (Except.error PyErr.calledProcessError, w1) =>
          (Except.ok none, addLog w1 ["Error resizing video"])
        | (Except.error e, w1) => (Except.error e, w1)

/-- video_processor.py line 25: the extension set of the batch glob. -/
def video_extensions : List String :=
  [".mp4", ".mov", ".avi", ".mkv"]

/-- video_processor.py lines 22-31 (list_video_files): one glob pass per
extension over the directory entries, results as full paths. -/
def list_video_files (env : Env) (directory : String) : List String :=
  (video_extensions.map (fun ext =>
    ((env.dirFiles directory).filter (fun f => ext.data.isSuffixOf f.data)).map
      (fun f => pathJoin directory f))).flatten

/-- One operation dict of the batch config, with the .get defaults of
video_processor.py lines 282-316. -/
structure OpSpec where
  type : String
  start_time : Int := 0
  duration : Option Int := none
  text : String := ""
  position : String := "bottomright"
  fontsize : Nat := 24
  intro_path : String := ""
  format : String := "mp4"
  platform : String := "youtube"
deriving DecidableEq, Repr

/-- video_processor.py lines 282-316: dispatch one operation of the chain,
with the batch-provided output path; an unrecognized type leaves
current_input unchanged. -/
def batch_apply_op (env : Env) (output_dir filename : String) (op : OpSpec)
    (current : Option String) (w : World) : Except PyErr (Option String) × World :=
  if op.type = "trim" then
    trim_video env current
      (some (pathJoin output_dir ((splitext filename).1 ++ "_trimmed" ++ (splitext filename).2)))
      op.start_time op.duration w
  else if op.type = "watermark" then
    add_watermark env current op.text
      (some (pathJoin output_dir ((splitext filename).1 ++ "_watermarked" ++ (splitext filename).2)))
      op.position op.fontsize w
  else if op.type = "intro" then
    add_intro env current op.intro_path
      (some (pathJoin output_dir ((splitext filename).1 ++ "_with_intro" ++ (splitext filename).2)))
      w
  else if op.type = "convert" then
    convert_format env current op.format
      (some (pathJoin output_dir ((splitext filename).1 ++ "." ++ op.format))) w
  else if op.type = "resize" then
    resize_for_platform env current op.platform
      (some (pathJoin output_dir ((splitext filename).1 ++ "_for_" ++ op.platform ++ (splitext filename).2)))
      w
  else (Except.ok current, w)

/-- The inner operation loop of batch_process (lines 282-316): each
operation's result becomes the next operation's input, with no check in
between; an escaping exception aborts the whole batch. -/
def batch_chain (env : Env) (output_dir filename : String) :
    List OpSpec → Option String → World → Except PyErr (Option String) × World
  | [], current, w => (Except.ok current, w)
  | op :: ops, current, w =>
    match batch_apply_op env output_dir filename op current w with
    | (Except.ok next, w1) => batch_chain env output_dir filename ops next w1
    | (Except.error e, w1) => (Except.error e, w1)

/-- The outer file loop of batch_process (lines 277-319) with the final
truthiness check of line 318. -/
def batch_files_loop (env : Env) (output_dir : String) (operations : List OpSpec) :
    List String → World → Except PyErr (List String) × World
  | [], w => (Except.ok [], w)
  | vf :: vfs, w =>
    let filename := pyBasename vf
    match batch_chain env output_dir filename operations (some vf) w with
    | (Except.error e, w1) => (Except.error e, w1)
    | (Except.ok current, w1) =>
      match batch_files_loop env output_dir operations vfs w1 with
      | (Except.error e, w2) => (Except.error e, w2)
      | (Except.ok rest, w2) =>
        (Except.ok ((match current with
          | some p => if p ≠ "" ∧ p ≠ vf then [p] else []
          | none => []) ++ rest), w2)

/-- video_processor.py lines 257-321 (batch_process). -/
def batch_process (env : Env) (input_dir : String) (operations : List OpSpec)
    (output_dir? : Option String) (w : World) : Except PyErr (List String) × World :=
  let output_dir := output_dir?.getD (pathJoin input_dir "processed")
  batch_files_loop env output_dir operations (list_video_files env input_dir) w

end VP

/-! ## World helper lemmas for the video_processor theorems -/

theorem lookup_filter_ne (p : String) (l : List (String × List String)) :
    (l.filter (fun e => e.1 != p)).lookup p = none := by
  induction l with
  | nil => rfl
  | cons e t ih =>
    by_cases he : e.1 = p
    · simp [List.filter_cons, he, ih]
    · have hbe : (p == e.1) = false := beq_eq_false_iff_ne.mpr (Ne.symm he)
      have hne : (e.1 != p) = true := bne_iff_ne.mpr he
      simp [List.filter_cons, hne, List.lookup, hbe, ih]

theorem lookup_filter_append (p : String) (content : List String)
    (l : List (String × List String)) :
    ((l.filter (fun e => e.1 != p)) ++ [(p, content)]).lookup p = some content := by
  induction l with
  | nil => simp [List.lookup]
  | cons e t ih =>
    by_cases he : e.1 = p
    · simp [List.filter_cons, he, ih]
    · have hbe : (p == e.1) = false := beq_eq_false_iff_ne.mpr (Ne.symm he)
      have hne : (e.1 != p) = true := bne_iff_ne.mpr he
      simp [List.filter_cons, hne, List.lookup, hbe, ih]

theorem subprocess_run_map_some (env : VP.Env) (c : List String) (w : VP.World) :
    VP.subprocess_run env (c.map Option.some) w =
      ((if env.run_ok c then Except.ok () else Except.error VP.PyErr.calledProcessError),
       { w with calls := w.calls ++ [(c, w.files)] }) := by
  unfold VP.subprocess_run
  have hany : ((c.map Option.some).any fun a => a.isNone) = false := by simp
  have hmap : (c.map Option.some).map (fun a => a.getD "") = c := by
    simp [Function.comp_def]
  rw [hany, hmap]
  simp only [Bool.false_eq_true, if_false]
  split <;> rfl

theorem lookup_writeFile (w : VP.World) (p : String) (content : List String) :
    (VP.writeFile w p content).files.lookup p = some content :=
  lookup_filter_append p content w.files

theorem fileExists_writeFile (w : VP.World) (p : String) (content : List String) :
    VP.fileExists (VP.writeFile w p content) p = true := by
  simp [VP.fileExists, lookup_writeFile]

theorem fileExists_removeFile (w : VP.World) (p : String) :
    VP.fileExists (VP.removeFile w p) p = false := by
  simp [VP.fileExists, VP.removeFile, lookup_filter_ne]

/-! ## Theorems for claim C7 (intro temp file cleanup) -/

/-- Claim C7: whenever add_intro reaches the transcoder invocation (ffmpeg
present, intro file existing, input path a string), the spawned concat
command sees the temporary concat-list file containing exactly the two
absolute paths, intro first then input, and the temporary file is absent
from the final world on the success path and on the transcoder-failure path
alike. -/
theorem add_intro_temp_cleanup (env : VP.Env) (inp intro_path : String)
    (output_path : Option String) (w : VP.World)
    (hff : env.ffmpeg_ok = true) (hintro : VP.fileExists w intro_path = true) :
    VP.fileExists (VP.add_intro env (some inp) intro_path output_path w).2
      VP.concat_list_file = false ∧
    ∃ snap,
      (VP.add_intro env (some inp) intro_path output_path w).2.calls =
        w.calls ++ [(VP.concat_command (VP.intro_outp (some inp) output_path), snap)] ∧
      snap.lookup VP.concat_list_file =
        some [VP.concat_line env.cwd intro_path, VP.concat_line env.cwd inp] := by
  obtain ⟨ff, ro, cwd, df⟩ := env
  cases hff
  unfold VP.add_intro
  rw [hintro]
  simp only [Bool.true_eq_false, if_false]
  rw [subprocess_run_map_some]
  rcases hrun : ro (VP.concat_command (VP.intro_outp (some inp) output_path)) with _ | _ <;>
    simp only [hrun, Bool.false_eq_true, if_false, if_true]
  · rw [if_pos]
    · exact ⟨fileExists_removeFile _ _, (VP.writeFile w VP.concat_list_file _).files,
        rfl, lookup_writeFile w _ _⟩
    · show VP.fileExists _ VP.concat_list_file = true
      simp only [VP.addLog, VP.fileExists, VP.writeFile]
      rw [lookup_filter_append VP.concat_list_file _ w.files]
      rfl
  · exact ⟨fileExists_removeFile _ _, (VP.writeFile w VP.concat_list_file _).files,
      rfl, lookup_writeFile w _ _⟩

/-- The environment of the C7 witness: ffmpeg present, the transcoder call
failing (the failure path exercises the except-branch cleanup). -/
def c7Env : VP.Env :=
  { ffmpeg_ok := true, run_ok := fun _ => false, cwd := "/work", dirFiles := fun _ => [] }

/-- A world where the intro file exists. -/
def c7World : VP.World :=
  { files := [("intro.mp4", [])], calls := [], log := [] }

/-- Witness for C7 on concrete paths, with the transcoder failing. -/
theorem add_intro_temp_cleanup_witness :
    VP.fileExists (VP.add_intro c7Env (some "in.mp4") "intro.mp4" (some "out.mp4") c7World).2
      VP.concat_list_file = false ∧
    ∃ snap,
      (VP.add_intro c7Env (some "in.mp4") "intro.mp4" (some "out.mp4") c7World).2.calls =
        c7World.calls ++ [(VP.concat_command (VP.intro_outp (some "in.mp4") (some "out.mp4")), snap)] ∧
      snap.lookup VP.concat_list_file =
        some [VP.concat_line c7Env.cwd "intro.mp4", VP.concat_line c7Env.cwd "in.mp4"] :=
  add_intro_temp_cleanup c7Env "in.mp4" "intro.mp4" (some "out.mp4") c7World rfl (by decide)

/-! ## Theorems for claim C8 (resize platform enumeration) -/

theorem platform_settings_lookup_none (k : String)
    (h : k ∉ ["tiktok", "instagram", "instagram_story", "youtube"]) :
    VP.platform_settings.lookup k = none := by
  simp only [List.mem_cons, List.not_mem_nil, or_false, not_or] at h
  obtain ⟨h1, h2, h3, h4⟩ := h
  have b1 : (k == "tiktok") = false := beq_eq_false_iff_ne.mpr h1
  have b2 : (k == "instagram") = false := beq_eq_false_iff_ne.mpr h2
  have b3 : (k == "instagram_story") = false := beq_eq_false_iff_ne.mpr h3
  have b4 : (k == "youtube") = false := beq_eq_false_iff_ne.mpr h4
  simp [VP.platform_settings, List.lookup, b1, b2, b3, b4]

/-- Claim C8: a platform outside the enumeration {tiktok, instagram,
instagram_story, youtube} makes resize return failure without spawning any
transcoder command, printing the unknown platform and the full valid
enumeration; platform "tiktok" spawns the transcoder with the
aspect-preserving scale/pad target 1080:1920 and returns the output path
exactly when the transcoder exits zero. -/
theorem resize_for_platform_spec (env : VP.Env) (inp platform outp : String)
    (w : VP.World) (hff : env.ffmpeg_ok = true)
    (hunk : pyLower platform ∉ ["tiktok", "instagram", "instagram_story", "youtube"]) :
    (VP.resize_for_platform env (some inp) platform (some outp) w =
      (Except.ok none,
       VP.addLog w ["Unknown platform: " ++ platform, VP.supported_platforms_message])) ∧
    VP.supported_platforms_message =
      "Supported platforms: tiktok, instagram, instagram_story, youtube" ∧
    (VP.resize_for_platform env (some inp) "tiktok" (some outp) w).2.calls =
      w.calls ++ [(["ffmpeg", "-i", inp, "-vf", VP.resize_vf "1080:1920", "-c:a", "copy",
        outp, "-y"], w.files)] ∧
    (VP.resize_for_platform env (some inp) "tiktok" (some outp) w).1 =
      Except.ok (if env.run_ok ["ffmpeg", "-i", inp, "-vf", VP.resize_vf "1080:1920",
        "-c:a", "copy", outp, "-y"] then some outp else none) := by
  obtain ⟨ff, ro, cwd, df⟩ := env
  cases hff
  have hnone := platform_settings_lookup_none _ hunk
  have htik : VP.platform_settings.lookup (pyLower "tiktok") =
      some ("1080:1920", "TikTok (vertical 9:16)") := by decide
  refine ⟨?_, by decide, ?_, ?_⟩
  · simp [VP.resize_for_platform, hnone]
  · rcases hrun : ro ["ffmpeg", "-i", inp, "-vf", VP.resize_vf "1080:1920", "-c:a",
        "copy", outp, "-y"] with _ | _ <;>
      simp [VP.resize_for_platform, VP.subprocess_run, htik, hrun, VP.addLog]
  · rcases hrun : ro ["ffmpeg", "-i", inp, "-vf", VP.resize_vf "1080:1920", "-c:a",
        "copy", outp, "-y"] with _ | _ <;>
      simp [VP.resize_for_platform, VP.subprocess_run, htik, hrun, VP.addLog]

/-- The environment of the C8/C10 witnesses: ffmpeg present, transcoder
succeeding. -/
def c8Env : VP.Env :=
  { ffmpeg_ok := true, run_ok := fun _ => true, cwd := "", dirFiles := fun _ => [] }

/-- The empty world of the video_processor runs. -/
def vpWorld0 : VP.World :=
  { files := [], calls := [], log := [] }

/-- Witness for C8 at platform "unknown" and at platform "tiktok". -/
theorem resize_for_platform_spec_witness :
    (VP.resize_for_platform c8Env (some "in.mp4") "unknown" (some "out.mp4") vpWorld0 =
      (Except.ok none,
       VP.addLog vpWorld0 ["Unknown platform: " ++ "unknown", VP.supported_platforms_message])) ∧
    VP.supported_platforms_message =
      "Supported platforms: tiktok, instagram, instagram_story, youtube" ∧
    (VP.resize_for_platform c8Env (some "in.mp4") "tiktok" (some "out.mp4") vpWorld0).2.calls =
      vpWorld0.calls ++ [(["ffmpeg", "-i", "in.mp4", "-vf", VP.resize_vf "1080:1920",
        "-c:a", "copy", "out.mp4", "-y"], vpWorld0.files)] ∧
    (VP.resize_for_platform c8Env (some "in.mp4") "tiktok" (some "out.mp4") vpWorld0).1 =
      Except.ok (if c8Env.run_ok ["ffmpeg", "-i", "in.mp4", "-vf", VP.resize_vf "1080:1920",
        "-c:a", "copy", "out.mp4", "-y"] then some "out.mp4" else none) :=
  resize_for_platform_spec c8Env "in.mp4" "unknown" "out.mp4" vpWorld0 rfl (by decide)

/-! ## Theorems for claim C10 (watermark unknown-position fallback) -/

theorem watermark_positions_lookup_none (k : String)
    (h : k ∉ ["topleft", "topright", "bottomleft", "bottomright", "center"]) :
    VP.watermark_positions.lookup k = none := by
  simp only [List.mem_cons, List.not_mem_nil, or_false, not_or] at h
  obtain ⟨h1, h2, h3, h4, h5⟩ := h
  have b1 : (k == "topleft") = false := beq_eq_false_iff_ne.mpr h1
  have b2 : (k == "topright") = false := beq_eq_false_iff_ne.mpr h2
  have b3 : (k == "bottomleft") = false := beq_eq_false_iff_ne.mpr h3
  have b4 : (k == "bottomright") = false := beq_eq_false_iff_ne.mpr h4
  have b5 : (k == "center") = false := beq_eq_false_iff_ne.mpr h5
  simp [VP.watermark_positions, List.lookup, b1, b2, b3, b4, b5]

/-- Claim C10: a position whose lowercase form is outside {topleft,
topright, bottomleft, bottomright, center} is not rejected: add_watermark
falls back to the bottomright coordinates w-tw-10:h-th-10, spawns the
transcoder command with them, and returns the output path exactly when the
transcoder exits zero (in contrast to resize, which rejects unknown
platforms without spawning; see the C8 theorem). -/
theorem add_watermark_unknown_position (env : VP.Env) (inp text outp position : String)
    (fontsize : Nat) (w : VP.World)
    (hff : env.ffmpeg_ok = true)
    (hpos : pyLower position ∉ ["topleft", "topright", "bottomleft", "bottomright", "center"]) :
    (VP.add_watermark env (some inp) text (some outp) position fontsize w).2.calls =
      w.calls ++ [(["ffmpeg", "-i", inp, "-vf",
        VP.watermark_vf text fontsize "w-tw-10:h-th-10", "-codec:a", "copy", outp, "-y"],
        w.files)] ∧
    (VP.add_watermark env (some inp) text (some outp) position fontsize w).1 =
      Except.ok (if env.run_ok ["ffmpeg", "-i", inp, "-vf",
        VP.watermark_vf text fontsize "w-tw-10:h-th-10", "-codec:a", "copy", outp, "-y"]
        then some outp else none) := by
  obtain ⟨ff, ro, cwd, df⟩ := env
  cases hff
  have hnone := watermark_positions_lookup_none _ hpos
  have hbr : (List.lookup "bottomright" VP.watermark_positions).getD "" =
      "w-tw-10:h-th-10" := rfl
  rcases hrun : ro ["ffmpeg", "-i", inp, "-vf",
      VP.watermark_vf text fontsize "w-tw-10:h-th-10", "-codec:a", "copy", outp, "-y"]
    with _ | _ <;>
    simp [VP.add_watermark, VP.subprocess_run, hnone, hbr, hrun, VP.addLog]

/-- Witness for C10 at position "middle". -/
theorem add_watermark_unknown_position_witness :
    (VP.add_watermark c8Env (some "in.mp4") "mytext" (some "out.mp4") "middle" 24 vpWorld0).2.calls =
      vpWorld0.calls ++ [(["ffmpeg", "-i", "in.mp4", "-vf",
        VP.watermark_vf "mytext" 24 "w-tw-10:h-th-10", "-codec:a", "copy", "out.mp4", "-y"],
        vpWorld0.files)] ∧
    (VP.add_watermark c8Env (some "in.mp4") "mytext" (some "out.mp4") "middle" 24 vpWorld0).1 =
      Except.ok (if c8Env.run_ok ["ffmpeg", "-i", "in.mp4", "-vf",
        VP.watermark_vf "mytext" 24 "w-tw-10:h-th-10", "-codec:a", "copy", "out.mp4", "-y"]
        then some "out.mp4" else none) :=
  add_watermark_unknown_position c8Env "in.mp4" "mytext" "out.mp4" "middle" 24 vpWorld0
    rfl (by decide)

/-! ## Theorem for claim C1 (batch runner chain behaviour on failure) -/

/-- The C1 environment: ffmpeg present, every transcoder invocation failing
(so the trim step fails), one video file in the source directory. -/
def c1Env : VP.Env :=
  { ffmpeg_ok := true, run_ok := fun _ => false, cwd := "", dirFiles := fun _ => ["clip.mp4"] }

/-- The operation list [trim, watermark] of the C1 scenario. -/
def c1Ops : List VP.OpSpec :=
  [{ type := "trim" }, { type := "watermark" }]

/-- Claim C1 evaluated on the scenario of the claim (operations
[trim, watermark], trim failing for the single file): batch_process does
NOT halt the file's chain.  It passes None on to add_watermark, whose
transcoder argument list then contains None, raising an uncaught TypeError
that aborts the entire batch: the run ends in an error (no output list is
returned at all), with exactly the one failed trim invocation in the
trace. -/
theorem batch_process_no_halt :
    (VP.batch_process c1Env "videos" c1Ops none vpWorld0).1 =
      Except.error VP.PyErr.typeError ∧
    (VP.batch_process c1Env "videos" c1Ops none vpWorld0).2.calls =
      [(["ffmpeg", "-i", "videos/clip.mp4", "-ss", "0", "-c", "copy",
         "videos/processed/clip_trimmed.mp4", "-y"], [])] :=
  ⟨rfl, rfl⟩
